import Mathlib

/-! Verification development for the strategic SEO scoring and aggregation engine
of `technical_seo_audit_system_v3.py`.

The Python source is shallowly embedded below.  Conventions of the embedding:

* Python `str` becomes `String`; `lower`, `strip`, substring tests (`in`),
  `startswith` and `count` are modelled on the underlying character list.
* Python `float` arithmetic becomes exact rational arithmetic.  The page
  weights (5.0, 4.5, 4.0, 4.8, 3.0, 2.5, 2.0) have one decimal digit, so the
  scorer stores them in tenths as naturals; for a weight `w = w10/10` the
  scored value `base * (w / 2.5)` equals `base * w10 / 25` exactly, and
  The Python `int(...)` truncation of that nonnegative value is natural-number
  division by 25 (the lemma `get_strategic_impact_score_eq_floor` below
  rechecks this against the literal rational formula).  The float value and
  the exact value agree on every reachable base/weight pair, which was
  checked exhaustively over both tables.  The aggregator keeps weights as
  genuine rationals (`page_weight_of`).
* Python dictionaries with string keys become association lists looked up
  by `assocFind` (mirroring `dict.get(key, default)` via `Option.getD`).
* `TechnicalSEOIssue` keeps the fields the specified properties mention
  (`url`, `issue_type`, `severity`, `category`, `status`, `impact_score`).
  The presentation-only fields `description`, `recommendation` and
  `date_detected` carry no decision logic and are omitted.
-/

namespace SEOAudit

/-- Python `s.lower()` for the ASCII strings handled by the auditor. -/
def pyLower (s : String) : String := ⟨s.data.map Char.toLower⟩

/-- Python `s.strip()`: drop whitespace from both ends. -/
def pyStrip (s : String) : String :=
  ⟨((s.data.dropWhile Char.isWhitespace).reverse.dropWhile Char.isWhitespace).reverse⟩

/-- Python `s.count(c)` for a single character. -/
def countChar (s : String) (c : Char) : Nat := s.data.count c

/-- Python substring test `pat in hay`. -/
def containsSub (hay pat : String) : Prop := pat.data <:+: hay.data

instance (hay pat : String) : Decidable (containsSub hay pat) := by
  unfold containsSub; infer_instance

/-- Python `s.startswith(pat)`. -/
def pyStartsWith (s pat : String) : Prop := pat.data <+: s.data

instance (s pat : String) : Decidable (pyStartsWith s pat) := by
  unfold pyStartsWith; infer_instance

/-- Python space-join of a string list (str.join with a single-space separator). -/
def joinSpace : List String → String
  | [] => ""
  | [s] => s
  | s :: rest => s ++ " " ++ joinSpace rest

/-- Ordered association-list lookup, mirroring a Python `dict` keyed by strings
(keys are unique, so lookup order is immaterial). -/
def assocFind {β : Type} (k : String) : List (String × β) → Option β
  | [] => none
  | (k', v) :: rest => if k = k' then some v else assocFind k rest

/-- Severity table `StrategicSEOScorer.issue_severity`: base impact per issue type. -/
def issue_severity : List (String × Nat) :=
  [("http_5xx_error", 100),
   ("HTTP Error", 90),
   ("not_indexable", 100),
   ("core_web_vitals_poor", 95),
   ("Blocked by Robots Meta", 100),
   ("Missing Title Tag", 95),
   ("not_mobile_friendly", 90),
   ("no_https", 85),
   ("Thin Content", 85),
   ("Duplicate Title Tags", 80),
   ("Generic Title Tag", 75),
   ("Missing Canonical Tag", 75),
   ("Invalid Canonical URL", 75),
   ("Missing Product Schema", 70),
   ("Slow Response Time", 80),
   ("broken_internal_links", 75),
   ("Missing H1 Tag", 65),
   ("Duplicate Meta Descriptions", 50),
   ("Short Title Tag", 55),
   ("Long Title Tag", 50),
   ("Missing Structured Data", 50),
   ("Insufficient Internal Links", 45),
   ("Missing Organization Schema", 45),
   ("Missing Meta Description", 45),
   ("Large Page Size", 55),
   ("Images Without Alt Text", 40),
   ("Short Meta Description", 25),
   ("Long Meta Description", 25),
   ("Excessive External Links", 30),
   ("Multiple H1 Tags", 30),
   ("long_title", 25),
   ("High Impressions Zero Clicks", 95),
   ("High Traffic Page with Technical Issues", 90),
   ("High Impressions Low CTR", 70),
   ("High Impressions Poor Position", 60),
   ("High Value Page Opportunity", 50)]

/-- Page-importance table `StrategicSEOScorer.page_weights`: business weight per page type.
The Python floats 5.0, 4.5, 4.0, 4.8, 3.0, 2.5, 2.0 are stored in tenths
(50, 45, 40, 48, 30, 25, 20) so that the scorer arithmetic stays in `ℕ`. -/
def page_weights : List (String × Nat) :=
  [("homepage", 50),
   ("product", 45),
   ("category", 40),
   ("checkout", 48),
   ("pricing", 45),
   ("contact", 30),
   ("about", 25),
   ("blog", 20),
   ("other", 20)]

/-- Page classifier `StrategicSEOScorer.classify_page_type`: ordered substring rules over the
lower-cased URL. -/
def classify_page_type (url : String) : String :=
  let u := pyLower url
  if (containsSub u "/" ∨ containsSub u "/home" ∨ containsSub u "/index")
      ∧ countChar u '/' ≤ 3 then "homepage"
  else if containsSub u "/product" ∨ containsSub u "/p/" ∨ containsSub u "photo-blankets"
      ∨ containsSub u "photo-books" ∨ containsSub u "photo-mugs" then "product"
  else if containsSub u "/category" ∨ containsSub u "/c/" ∨ containsSub u "/canvas-prints"
      ∨ containsSub u "/photo-calendars" then "category"
  else if containsSub u "/checkout" ∨ containsSub u "/cart" ∨ containsSub u "/basket" then "checkout"
  else if containsSub u "/about" ∨ containsSub u "/company" then "about"
  else if containsSub u "/contact" ∨ containsSub u "/support" then "contact"
  else if containsSub u "/blog" ∨ containsSub u "/news" then "blog"
  else "other"

/-- Lookup `page_weights.get(classify_page_type(url), 2.0)` in tenths: the default
2.0 is 20 tenths. -/
def page_weight_tenths (url : String) : Nat :=
  (assocFind (classify_page_type url) page_weights).getD 20

/-- Lookup `page_weights.get(classify_page_type(url), 2.0)` as the actual rational
weight, the value `_generate_audit_summary` multiplies with. -/
def page_weight_of (url : String) : ℚ := (page_weight_tenths url : ℚ) / 10

/-- Strategic scorer `StrategicSEOScorer.get_strategic_impact_score`:
`min(100, int(issue_severity.get(t, 50) * (page_weight / 2.5)))`.
With the weight in tenths, `base * (w10/10) / (5/2) = base * w10 / 25`
exactly, and `int` truncation of this nonnegative value is `ℕ` division. -/
def get_strategic_impact_score (issue_type url : String) : Nat :=
  let base_impact := (assocFind issue_type issue_severity).getD 50
  min 100 (base_impact * page_weight_tenths url / 25)

/-- Recheck of the tenths encoding: the scorer equals the literal float
formula `min(100, int(base * (weight / 2.5)))` evaluated in exact rational
arithmetic (`int` truncation of a nonnegative value being `Int.toNat ∘ ⌊·⌋`). -/
lemma get_strategic_impact_score_eq_floor (issue_type url : String) :
    get_strategic_impact_score issue_type url =
      min 100 (Int.toNat ⌊(((assocFind issue_type issue_severity).getD 50 : ℚ))
        * (page_weight_of url / (5/2))⌋) := by
  unfold get_strategic_impact_score page_weight_of
  have h : (((assocFind issue_type issue_severity).getD 50 : ℚ))
      * (((page_weight_tenths url : ℚ) / 10) / (5/2))
      = (((assocFind issue_type issue_severity).getD 50 * page_weight_tenths url : ℕ) : ℚ)
        / ((25 : ℕ) : ℚ) := by
    push_cast
    ring
  rw [h, Rat.floor_natCast_div_natCast, ← Int.natCast_div, Int.toNat_natCast]

/-- Issue record `TechnicalSEOIssue` (decision-relevant fields; `description`,
`recommendation` and `date_detected` are presentation-only and omitted). -/
structure TechnicalSEOIssue where
  url : String
  issue_type : String
  severity : String
  category : String
  status : String
  impact_score : Nat
deriving DecidableEq

/-- Crawl record `CrawlMetrics`: one per URL. -/
structure CrawlMetrics where
  url : String
  status_code : Nat
  response_time : ℚ
  title : String
  meta_description : String
  h1_tags : List String
  canonical_url : Option String
  robots_meta : String
  internal_links : Nat
  external_links : Nat
  images_without_alt : Nat
  page_size : Nat
deriving DecidableEq

/-- One entry of the schema_data list of the audit results, as produced by
`SchemaValidator.validate_structured_data` (its `url` always echoes the
input URL; `error` marks the exception branch, in which case the other
fields are absent and unread). -/
structure SchemaRecord where
  url : String
  error : Bool
  json_ld_count : Nat
  schema_types_found : List String
deriving DecidableEq

/-- One `GSCMetrics` entry, projected to the `page_experience_signals`
fields `_analyze_issues` reads (`domain` appears only in descriptions). -/
structure GSCMetric where
  url : String
  impressions : Nat
  clicks : Nat
  ctr : ℚ
  position : ℚ
deriving DecidableEq

/-- Issue constructor: every construction site in `_analyze_issues` sets
status to New and `impact_score = get_strategic_impact_score(issue_type, url)`
for the URL of the issue. -/
def mkIssue (url issue_type severity category : String) : TechnicalSEOIssue :=
  ⟨url, issue_type, severity, category, "New", get_strategic_impact_score issue_type url⟩

/-- The generic-title pattern list of `_analyze_issues`. -/
def generic_title_patterns : List String :=
  ["untitled", "new page", "home page", "welcome", "default", "page"]

/-- The per-record portion of `_analyze_issues` (everything before the
cross-page analysis), in source order.  Python truthiness of a string or a
list is modelled as non-emptiness. -/
def crawl_record_issues (c : CrawlMetrics) : List TechnicalSEOIssue :=
  (if c.status_code ≥ 400 then
    [mkIssue c.url "HTTP Error" (if c.status_code ≥ 500 then "Critical" else "High")
      "Crawlability"] else []) ++
  (if c.response_time > 3 then
    [mkIssue c.url "Slow Response Time" (if c.response_time > 5 then "High" else "Medium")
      "Performance"] else []) ++
  (if c.title = "" then [mkIssue c.url "Missing Title Tag" "High" "Content"] else []) ++
  (if c.meta_description = "" then
    [mkIssue c.url "Missing Meta Description" "Medium" "Content"] else []) ++
  (if c.h1_tags = [] then [mkIssue c.url "Missing H1 Tag" "Medium" "Content"]
   else if c.h1_tags.length > 1 then [mkIssue c.url "Multiple H1 Tags" "Low" "Content"]
   else []) ++
  (if c.images_without_alt > 0 then
    [mkIssue c.url "Images Without Alt Text" "Medium" "Content"] else []) ++
  (if c.page_size > 1024 * 1024 then
    [mkIssue c.url "Large Page Size" "Medium" "Performance"] else []) ++
  (if (c.title ++ c.meta_description ++ joinSpace c.h1_tags).data.length < 200 then
    [mkIssue c.url "Thin Content" "High" "Content"] else []) ++
  (if c.title ≠ "" then
    (if c.title.data.length < 30 then [mkIssue c.url "Short Title Tag" "Medium" "Content"]
     else if c.title.data.length > 70 then [mkIssue c.url "Long Title Tag" "Medium" "Content"]
     else []) ++
    (if ∃ p ∈ generic_title_patterns, containsSub (pyLower c.title) p then
      [mkIssue c.url "Generic Title Tag" "High" "Content"] else [])
   else []) ++
  (if c.meta_description ≠ "" then
    (if c.meta_description.data.length < 120 then
      [mkIssue c.url "Short Meta Description" "Low" "Content"]
     else if c.meta_description.data.length > 170 then
      [mkIssue c.url "Long Meta Description" "Low" "Content"]
     else [])
   else []) ++
  (match c.canonical_url with
   | none => [mkIssue c.url "Missing Canonical Tag" "High" "Technical SEO"]
   | some cu =>
     if cu = "" then [mkIssue c.url "Missing Canonical Tag" "High" "Technical SEO"]
     else if cu ≠ c.url ∧ ¬ pyStartsWith cu "http" then
       [mkIssue c.url "Invalid Canonical URL" "High" "Technical SEO"]
     else []) ++
  (if c.internal_links < 3 then
    [mkIssue c.url "Insufficient Internal Links" "Medium" "Technical SEO"] else []) ++
  (if c.external_links > 50 then
    [mkIssue c.url "Excessive External Links" "Low" "Technical SEO"] else []) ++
  (if c.robots_meta ≠ "" then
    (if containsSub (pyLower c.robots_meta) "noindex"
        ∧ containsSub (pyLower c.robots_meta) "nofollow" then
      [mkIssue c.url "Blocked by Robots Meta" "Critical" "Technical SEO"] else [])
   else [])

/-- One step of the duplicate-content bookkeeping shared by the title and the
meta-description tracks: `seen` maps an already-seen text to the first URL it
was seen on; a re-occurrence emits one issue for the current URL and one for
the stored URL (in that order) and leaves `seen` unchanged, a first
occurrence records the text. -/
def dup_step (seen : List (String × String)) (text url issue_type severity : String)
    (minLen : Nat) : List TechnicalSEOIssue × List (String × String) :=
  if text ≠ "" ∧ text.data.length > minLen then
    match assocFind text seen with
    | some prev => ([mkIssue url issue_type severity "Content",
                     mkIssue prev issue_type severity "Content"], seen)
    | none => ([], seen ++ [(text, url)])
  else ([], seen)

/-- The cross-page pass of `_analyze_issues`: walk the crawl records once,
tracking `titles_seen` and `meta_descriptions_seen`. -/
def dup_pass_go : List CrawlMetrics → List (String × String) → List (String × String) →
    List TechnicalSEOIssue
  | [], _, _ => []
  | c :: rest, tseen, mseen =>
    let t := dup_step tseen (pyStrip c.title) c.url "Duplicate Title Tags" "High" 10
    let m := dup_step mseen (pyStrip c.meta_description) c.url
      "Duplicate Meta Descriptions" "Medium" 20
    t.1 ++ m.1 ++ dup_pass_go rest t.2 m.2

/-- The cross-page pass started from empty `seen` maps. -/
def dup_pass (crawl : List CrawlMetrics) : List TechnicalSEOIssue :=
  dup_pass_go crawl [] []

/-- The structured-data portion of `_analyze_issues` for one schema record. -/
def schema_record_issues (s : SchemaRecord) : List TechnicalSEOIssue :=
  if s.url ≠ "" ∧ s.error = false then
    (if s.json_ld_count = 0 then
      [mkIssue s.url "Missing Structured Data" "Medium" "Technical SEO"] else []) ++
    (if classify_page_type s.url = "product" ∧ "Product" ∉ s.schema_types_found then
      [mkIssue s.url "Missing Product Schema" "High" "Technical SEO"] else []) ++
    (if classify_page_type s.url = "homepage" ∧ "Organization" ∉ s.schema_types_found then
      [mkIssue s.url "Missing Organization Schema" "Medium" "Technical SEO"] else [])
  else []

/-- The GSC portion of `_analyze_issues` for one metric, appending to the
accumulated issue list (the cross-reference check reads that list). -/
def gsc_metric_step (acc : List TechnicalSEOIssue) (m : GSCMetric) :
    List TechnicalSEOIssue :=
  let acc1 := acc ++ (if m.impressions > 1000 ∧ m.ctr < mkRat 2 100 then
    [mkIssue m.url "High Impressions Low CTR" "High" "GSC Performance"] else [])
  let acc2 := acc1 ++ (if m.impressions > 500 ∧ m.position > 10 then
    [mkIssue m.url "High Impressions Poor Position" "Medium" "GSC Performance"] else [])
  let acc3 := acc2 ++ (if m.impressions > 1000 ∧ m.clicks = 0 then
    [mkIssue m.url "High Impressions Zero Clicks" "Critical" "GSC Performance"] else [])
  let acc4 := acc3 ++ (if m.impressions > 10000 then
    [mkIssue m.url "High Value Page Opportunity" "Medium" "GSC Performance"] else [])
  let crawl_issues_for_url :=
    acc4.filter (fun i => i.url == m.url && i.category != "GSC Performance")
  acc4 ++ (if crawl_issues_for_url ≠ [] ∧ m.impressions > 1000 then
    [mkIssue m.url "High Traffic Page with Technical Issues" "Critical" "GSC Performance"]
   else [])

/-- Fold of `gsc_metric_step` over the metric list of one domain. -/
def gsc_metrics_go (acc : List TechnicalSEOIssue) : List GSCMetric →
    List TechnicalSEOIssue
  | [] => acc
  | m :: rest => gsc_metrics_go (gsc_metric_step acc m) rest

/-- Fold over the gsc_data mapping of the audit results (domain-keyed). -/
def gsc_pass (acc : List TechnicalSEOIssue) : List (String × List GSCMetric) →
    List TechnicalSEOIssue
  | [] => acc
  | p :: rest => gsc_pass (gsc_metrics_go acc p.2) rest

/-- `TechnicalSEOAuditor._analyze_issues`: per-record pass, cross-page pass,
structured-data pass, then the GSC pass appending to the same list. -/
def analyze_issues (crawl : List CrawlMetrics) (schema : List SchemaRecord)
    (gsc : List (String × List GSCMetric)) : List TechnicalSEOIssue :=
  gsc_pass (crawl.flatMap crawl_record_issues ++ dup_pass crawl
    ++ schema.flatMap schema_record_issues) gsc

/-- `_categorize_issues_by_team`: keyword list of the tech bucket. -/
def tech_issue_types : List String :=
  ["HTTP Error", "Slow Response Time", "Large Page Size",
   "Missing Canonical Tag", "Invalid Canonical URL", "Blocked by Robots Meta",
   "Missing Structured Data", "Missing Product Schema", "Missing Organization Schema",
   "Insufficient Internal Links", "Excessive External Links",
   "High Impressions Zero Clicks", "High Traffic Page with Technical Issues",
   "missing_canonical", "crawlability", "https_issues",
   "server_errors", "redirect_chains", "broken_links"]

/-- `_categorize_issues_by_team`: keyword list of the marketing bucket. -/
def marketing_issue_types : List String :=
  ["Missing Title Tag", "Short Title Tag", "Long Title Tag", "Generic Title Tag",
   "Duplicate Title Tags", "Missing Meta Description", "Short Meta Description",
   "Long Meta Description", "Duplicate Meta Descriptions", "Missing H1 Tag",
   "Multiple H1 Tags", "Thin Content",
   "High Impressions Low CTR", "High Impressions Poor Position", "High Value Page Opportunity",
   "duplicate_content", "keyword_optimization", "thin_content", "missing_schema"]

/-- `_categorize_issues_by_team`: keyword list of the design bucket. -/
def design_issue_types : List String :=
  ["Images Without Alt Text", "not_mobile_friendly", "poor_ux",
   "mobile_usability", "touch_targets", "viewport_issues",
   "image_optimization", "layout_issues"]

/-- Python str.replace specialised to mapping underscores to spaces. -/
def underscoreToSpace (s : String) : String :=
  ⟨s.data.map (fun c => if c = '_' then ' ' else c)⟩

/-- The bucket test of `_categorize_issues_by_team`: exact membership in the
issue-type keyword list of the bucket, or some keyword (lower-cased, underscores replaced by
spaces) occurring as a substring of the lower-cased issue type. -/
def team_match (types : List String) (issue_type : String) : Prop :=
  issue_type ∈ types ∨
    ∃ k ∈ types, containsSub (pyLower issue_type) (underscoreToSpace (pyLower k))

instance (types : List String) (issue_type : String) :
    Decidable (team_match types issue_type) := by
  unfold team_match; infer_instance

/-- Team router `_categorize_issues_by_team`, reduced to the bucket contents
(tech, marketing, design): first matching bucket wins, in dictionary order;
anything unmatched defaults to the tech bucket.  The derived per-bucket
metrics carry no routing logic and are omitted. -/
def categorize_issues_by_team : List TechnicalSEOIssue →
    List TechnicalSEOIssue × List TechnicalSEOIssue × List TechnicalSEOIssue
  | [] => ([], [], [])
  | i :: rest =>
    match categorize_issues_by_team rest with
    | (t, m, d) =>
      if team_match tech_issue_types i.issue_type then (i :: t, m, d)
      else if team_match marketing_issue_types i.issue_type then (t, i :: m, d)
      else if team_match design_issue_types i.issue_type then (t, m, i :: d)
      else (i :: t, m, d)

/-- The `page_issues` grouping of `_generate_audit_summary`: Python dict
insertion — append to the list of an existing key, else append a new key. -/
def insertIssue : List (String × List TechnicalSEOIssue) → TechnicalSEOIssue →
    List (String × List TechnicalSEOIssue)
  | [], i => [(i.url, [i])]
  | (u, grp) :: rest, i =>
    if u = i.url then (u, grp ++ [i]) :: rest else (u, grp) :: insertIssue rest i

/-- Left fold building `page_issues` in issue order. -/
def group_go : List TechnicalSEOIssue → List (String × List TechnicalSEOIssue) →
    List (String × List TechnicalSEOIssue)
  | [], acc => acc
  | i :: rest, acc => group_go rest (insertIssue acc i)

/-- Grouping `page_issues`, keyed by URL, of the issue list. -/
def group_issues_by_url (issues : List TechnicalSEOIssue) :
    List (String × List TechnicalSEOIssue) :=
  group_go issues []

/-- Accumulator total_weighted_impact of `_generate_audit_summary`: per URL
with issues, the sum of the impact scores of its issues times its page weight. -/
def total_weighted_impact (issues : List TechnicalSEOIssue) : ℚ :=
  ((group_issues_by_url issues).map
    (fun g => (((g.2.map (fun i => i.impact_score)).sum : ℕ) : ℚ) * page_weight_of g.1)).sum

/-- Accumulator total_weight of `_generate_audit_summary`: the page weights of all URLs
with issues, plus — second loop — the page weights of crawled URLs that have
no issues (`url not in page_issues`). -/
def total_weight (issues : List TechnicalSEOIssue) (crawl : List CrawlMetrics) : ℚ :=
  ((group_issues_by_url issues).map (fun g => page_weight_of g.1)).sum +
  ((crawl.filter (fun c => (assocFind c.url (group_issues_by_url issues)).isNone)).map
    (fun c => page_weight_of c.url)).sum

/-- Field seo_score of the summary: `max(0, 100 - avg_weighted_impact / 50)` when
`total_weight > 0`, else 100. -/
def seo_score (issues : List TechnicalSEOIssue) (crawl : List CrawlMetrics) : ℚ :=
  if 0 < total_weight issues crawl then
    max 0 (100 - (total_weighted_impact issues / total_weight issues crawl) / 50)
  else 100

/-- Field total_issues of the summary. -/
def total_issues (issues : List TechnicalSEOIssue) : Nat := issues.length

/-- The issue types emitted by the per-record rules of `_analyze_issues`. -/
def crawl_rule_types : List String :=
  ["HTTP Error", "Slow Response Time", "Missing Title Tag", "Missing Meta Description",
   "Missing H1 Tag", "Multiple H1 Tags", "Images Without Alt Text", "Large Page Size",
   "Thin Content", "Short Title Tag", "Long Title Tag", "Generic Title Tag",
   "Short Meta Description", "Long Meta Description", "Missing Canonical Tag",
   "Invalid Canonical URL", "Insufficient Internal Links", "Excessive External Links",
   "Blocked by Robots Meta"]

/-- Every issue type the Issue Detector (`_analyze_issues`) can emit: the
per-record rules, the cross-page rules, the structured-data rules and the
GSC rules. -/
def detector_issue_types : List String :=
  crawl_rule_types ++
  ["Duplicate Title Tags", "Duplicate Meta Descriptions",
   "Missing Structured Data", "Missing Product Schema", "Missing Organization Schema",
   "High Impressions Low CTR", "High Impressions Poor Position",
   "High Impressions Zero Clicks", "High Value Page Opportunity",
   "High Traffic Page with Technical Issues"]

/-- Python `round(n/d)` for `0 ≤ n` and `0 < d`: round to nearest, ties to
even (bankers rounding, as Python round). -/
def pyRoundHalfEven (n d : ℤ) : ℤ :=
  let q := n / d
  let r := n % d
  if 2 * r < d then q
  else if d < 2 * r then q + 1
  else if q % 2 = 0 then q else q + 1

/-- The claimed scorer formula, following the wording of the spec:
`min(100, round(base * weight / 2.5))` with `base` the severity-table entry
(default 50) and `weight` the page-weight-table entry of the classified page
type (default 2.0).  With the weight in tenths, `base * weight / 2.5` is the
exact fraction `(base * w10) / 25`, so `round` is `pyRoundHalfEven · 25`. -/
def spec_score_round (issue_type url : String) : ℤ :=
  min 100 (pyRoundHalfEven
    (((assocFind issue_type issue_severity).getD 50 : ℤ) * (page_weight_tenths url : ℤ)) 25)

/-- The scorer formula as the code actually computes it, in the terms of the spec:
`min(100, floor(base * weight / 2.5))` (Python `int` truncation of the
nonnegative product), stated over exact rational arithmetic. -/
def spec_score_floor (issue_type url : String) : ℤ :=
  min 100 ⌊((assocFind issue_type issue_severity).getD 50 : ℚ)
    * page_weight_of url / (5/2)⌋

/-! Invariant lemmas about the individual passes of `_analyze_issues`. -/

lemma assocFind_mem {β : Type} {k : String} {v : β}
    {l : List (String × β)} (h : assocFind k l = some v) : (k, v) ∈ l := by
  induction l with
  | nil => simp [assocFind] at h
  | cons p rest ih =>
    obtain ⟨k', v'⟩ := p
    rw [assocFind] at h
    split at h
    · next hk => injection h with hv; subst hk; subst hv; exact List.mem_cons_self _ _
    · exact List.mem_cons_of_mem _ (ih h)

lemma crawl_record_issues_spec (c : CrawlMetrics) :
    ∀ i ∈ crawl_record_issues c, i.url = c.url ∧ i.issue_type ∈ crawl_rule_types := by
  unfold crawl_record_issues
  repeat' first
    | (refine List.forall_mem_append.mpr ⟨?_, ?_⟩)
    | split
  all_goals intro i hi
  all_goals first
    | (rw [List.mem_singleton] at hi; subst hi; exact ⟨rfl, by simp [mkIssue, crawl_rule_types]⟩)
    | simp at hi

lemma dup_step_fst_spec (seen : List (String × String)) (text url ty sev : String)
    (minLen : Nat) :
    ∀ i ∈ (dup_step seen text url ty sev minLen).1,
      i.issue_type = ty ∧ (i.url = url ∨ ∃ k, (k, i.url) ∈ seen) := by
  unfold dup_step
  split
  · split
    · next prev hfind =>
      intro i hi
      rcases List.mem_cons.mp hi with rfl | hi
      · exact ⟨rfl, Or.inl rfl⟩
      · rcases List.mem_cons.mp hi with rfl | hi
        · exact ⟨rfl, Or.inr ⟨text, assocFind_mem hfind⟩⟩
        · simp at hi
    · intro i hi; simp at hi
  · intro i hi; simp at hi

lemma dup_step_snd_spec (seen : List (String × String)) (text url ty sev : String)
    (minLen : Nat) :
    (dup_step seen text url ty sev minLen).2 = seen ∨
      (dup_step seen text url ty sev minLen).2 = seen ++ [(text, url)] := by
  unfold dup_step
  split
  · split
    · left; rfl
    · right; rfl
  · left; rfl

lemma dup_pass_go_spec :
    ∀ (l : List CrawlMetrics) (tseen mseen : List (String × String)),
      ∀ i ∈ dup_pass_go l tseen mseen,
        (i.issue_type = "Duplicate Title Tags" ∨
          i.issue_type = "Duplicate Meta Descriptions") ∧
        (i.url ∈ l.map CrawlMetrics.url ∨ (∃ k, (k, i.url) ∈ tseen) ∨
          (∃ k, (k, i.url) ∈ mseen))
  | [], _, _ => by intro i hi; simp [dup_pass_go] at hi
  | c :: rest, tseen, mseen => by
    intro i hi
    simp only [dup_pass_go, List.mem_append] at hi
    rcases hi with (hi | hi) | hi
    · obtain ⟨hty, hurl⟩ := dup_step_fst_spec _ _ _ _ _ _ i hi
      refine ⟨Or.inl hty, ?_⟩
      rcases hurl with h | ⟨k, hk⟩
      · exact Or.inl (by simp [h])
      · exact Or.inr (Or.inl ⟨k, hk⟩)
    · obtain ⟨hty, hurl⟩ := dup_step_fst_spec _ _ _ _ _ _ i hi
      refine ⟨Or.inr hty, ?_⟩
      rcases hurl with h | ⟨k, hk⟩
      · exact Or.inl (by simp [h])
      · exact Or.inr (Or.inr ⟨k, hk⟩)
    · obtain ⟨hty, hurl⟩ := dup_pass_go_spec rest _ _ i hi
      refine ⟨hty, ?_⟩
      rcases hurl with h | ⟨k, hk⟩ | ⟨k, hk⟩
      · rcases List.mem_map.mp h with ⟨c', hc', he⟩
        exact Or.inl (List.mem_map.mpr ⟨c', List.mem_cons_of_mem _ hc', he⟩)
      · rcases dup_step_snd_spec tseen (pyStrip c.title) c.url
          "Duplicate Title Tags" "High" 10 with h2 | h2 <;> rw [h2] at hk
        · exact Or.inr (Or.inl ⟨k, hk⟩)
        · rcases List.mem_append.mp hk with hk | hk
          · exact Or.inr (Or.inl ⟨k, hk⟩)
          · simp only [List.mem_singleton, Prod.mk.injEq] at hk
            exact Or.inl (by simp [hk.2])
      · rcases dup_step_snd_spec mseen (pyStrip c.meta_description) c.url
          "Duplicate Meta Descriptions" "Medium" 20 with h2 | h2 <;> rw [h2] at hk
        · exact Or.inr (Or.inr ⟨k, hk⟩)
        · rcases List.mem_append.mp hk with hk | hk
          · exact Or.inr (Or.inr ⟨k, hk⟩)
          · simp only [List.mem_singleton, Prod.mk.injEq] at hk
            exact Or.inl (by simp [hk.2])

lemma schema_record_issues_spec (s : SchemaRecord) :
    ∀ i ∈ schema_record_issues s, i.url = s.url ∧ i.issue_type ∈
      ["Missing Structured Data", "Missing Product Schema", "Missing Organization Schema"] := by
  unfold schema_record_issues
  repeat' first
    | (refine List.forall_mem_append.mpr ⟨?_, ?_⟩)
    | split
  all_goals intro i hi
  all_goals first
    | (rw [List.mem_singleton] at hi; subst hi; exact ⟨rfl, by simp [mkIssue]⟩)
    | simp at hi

lemma gsc_metric_step_spec (acc : List TechnicalSEOIssue) (m : GSCMetric) :
    ∀ i ∈ gsc_metric_step acc m, i ∈ acc ∨ i.url = m.url := by
  simp only [gsc_metric_step]
  repeat' first
    | (refine List.forall_mem_append.mpr ⟨?_, ?_⟩)
    | split
  all_goals intro i hi
  all_goals first
    | exact Or.inl hi
    | (rw [List.mem_singleton] at hi; subst hi; exact Or.inr rfl)
    | simp at hi

lemma gsc_metrics_go_spec :
    ∀ (ms : List GSCMetric) (acc : List TechnicalSEOIssue),
      ∀ i ∈ gsc_metrics_go acc ms, i ∈ acc ∨ ∃ m ∈ ms, i.url = m.url
  | [], acc => by
    intro i hi
    rw [gsc_metrics_go] at hi
    exact Or.inl hi
  | m :: rest, acc => by
    intro i hi
    rw [gsc_metrics_go] at hi
    rcases gsc_metrics_go_spec rest _ i hi with hi' | ⟨m', hm', he⟩
    · rcases gsc_metric_step_spec acc m i hi' with h | h
      · exact Or.inl h
      · exact Or.inr ⟨m, by simp, h⟩
    · exact Or.inr ⟨m', List.mem_cons_of_mem _ hm', he⟩

lemma gsc_pass_spec :
    ∀ (l : List (String × List GSCMetric)) (acc : List TechnicalSEOIssue),
      ∀ i ∈ gsc_pass acc l, i ∈ acc ∨ ∃ p ∈ l, ∃ m ∈ p.2, i.url = m.url
  | [], acc => by
    intro i hi
    rw [gsc_pass] at hi
    exact Or.inl hi
  | p :: rest, acc => by
    intro i hi
    rw [gsc_pass] at hi
    rcases gsc_pass_spec rest _ i hi with hi' | ⟨p', hp', hm⟩
    · rcases gsc_metrics_go_spec p.2 acc i hi' with h | ⟨m, hm, he⟩
      · exact Or.inl h
      · exact Or.inr ⟨p, by simp, m, hm, he⟩
    · exact Or.inr ⟨p', List.mem_cons_of_mem _ hp', hm⟩

/-! Positivity facts about the page weights. -/

lemma page_weight_tenths_pos (url : String) : 0 < page_weight_tenths url := by
  unfold page_weight_tenths
  rcases h : assocFind (classify_page_type url) page_weights with _ | v
  · simp
  · have hall : ∀ p ∈ page_weights, 0 < p.2 := by decide
    simpa using hall _ (assocFind_mem h)

lemma page_weight_of_pos (url : String) : 0 < page_weight_of url := by
  unfold page_weight_of
  have := page_weight_tenths_pos url
  positivity

lemma page_weight_of_nonneg (url : String) : 0 ≤ page_weight_of url :=
  (page_weight_of_pos url).le

/-! The claims. -/

/-- C1, counterexample: the claimed formula `min(100, round(base * weight / 2.5))`
disagrees with the code on `issue_type = "Multiple H1 Tags"` (base 30) and a
checkout URL (weight 4.8): the exact value is 57.6, which the `int()` of the code
truncates to 57 while `round` yields 58. -/
theorem C1_round_formula_counterexample :
    (get_strategic_impact_score "Multiple H1 Tags" "https://x.com/a/checkout" : ℤ) ≠
      spec_score_round "Multiple H1 Tags" "https://x.com/a/checkout" := by decide

/-- C1, amended: for every issue_type and url,
`get_strategic_impact_score(issue_type, url)` equals
`min(100, floor(base * weight / 2.5))` — floor (Python `int` truncation), not
round — where base is the severity-table entry (50 when absent) and weight the
page-weight-table entry for the classified page type (2.0 when absent). -/
theorem C1_score_floor_formula :
    ∀ issue_type url : String,
      (get_strategic_impact_score issue_type url : ℤ) = spec_score_floor issue_type url := by
  intro t u
  rw [get_strategic_impact_score_eq_floor]
  unfold spec_score_floor
  rw [mul_div_assoc]
  have hx : 0 ≤ ⌊((assocFind t issue_severity).getD 50 : ℚ) * (page_weight_of u / (5/2))⌋ := by
    apply Int.floor_nonneg.mpr
    have := page_weight_of_nonneg u
    positivity
  rw [Nat.cast_min, Int.toNat_of_nonneg hx]
  norm_num

/-- C5: for every issue type in the rule set of the Issue Detector and every URL,
the strategic impact score lies in [0, 100]. -/
theorem C5_score_in_range :
    ∀ issue_type url : String, issue_type ∈ detector_issue_types →
      0 ≤ (get_strategic_impact_score issue_type url : ℤ) ∧
        (get_strategic_impact_score issue_type url : ℤ) ≤ 100 := by
  intro t u _
  refine ⟨Int.natCast_nonneg _, ?_⟩
  have h : get_strategic_impact_score t u ≤ 100 := by
    unfold get_strategic_impact_score
    exact min_le_left _ _
  exact_mod_cast h

theorem C5_score_in_range_witness :
    "HTTP Error" ∈ detector_issue_types ∧
      (0 ≤ (get_strategic_impact_score "HTTP Error" "https://x.com/" : ℤ) ∧
        (get_strategic_impact_score "HTTP Error" "https://x.com/" : ℤ) ≤ 100) :=
  ⟨by decide, C5_score_in_range "HTTP Error" "https://x.com/" (by decide)⟩

/-- C6: the strategic impact score is monotonically nondecreasing in the page
weight of the classified page type; in particular a homepage-classified URL
(weight 5.0) scores at least an other-classified URL (weight 2.0) for the same
issue type. -/
theorem C6_score_monotone_in_page_weight :
    ∀ (issue_type u1 u2 : String),
      page_weight_of u2 ≤ page_weight_of u1 →
      get_strategic_impact_score issue_type u2 ≤ get_strategic_impact_score issue_type u1 := by
  intro t u1 u2 h
  have ht : page_weight_tenths u2 ≤ page_weight_tenths u1 := by
    unfold page_weight_of at h
    have h10 : (0:ℚ) < 10 := by norm_num
    exact_mod_cast (div_le_div_iff_of_pos_right h10).mp h
  unfold get_strategic_impact_score
  exact min_le_min (le_refl 100) (Nat.div_le_div_right (Nat.mul_le_mul_left _ ht))

theorem C6_score_monotone_witness :
    page_weight_of "https://x.com/some/deep/path" ≤ page_weight_of "https://x.com/" ∧
      get_strategic_impact_score "HTTP Error" "https://x.com/some/deep/path" ≤
        get_strategic_impact_score "HTTP Error" "https://x.com/" := by
  have h1 : page_weight_tenths "https://x.com/some/deep/path" = 20 := by decide
  have h2 : page_weight_tenths "https://x.com/" = 50 := by decide
  have hw : page_weight_of "https://x.com/some/deep/path" ≤ page_weight_of "https://x.com/" := by
    unfold page_weight_of
    rw [h1, h2]
    norm_num
  exact ⟨hw, C6_score_monotone_in_page_weight "HTTP Error" "https://x.com/" "https://x.com/some/deep/path" hw⟩

/-- C10, counterexample: `classify_page_type` does not send every URL with at
most 3 slashes to `homepage` — the first rule additionally needs one of the
patterns `'/'`, `'/home'`, `'/index'` to occur, so the zero-slash URL
`"contact"` (which matches the contact keyword only together with a slash)
falls through to `other`. -/
theorem C10_counterexample :
    (pyLower "contact").data.count '/' ≤ 3 ∧ classify_page_type "contact" ≠ "homepage" := by
  decide

/-- C10, amended: every URL whose lower-cased form contains at least one and
at most 3 '/' characters is classified `homepage`, regardless of any product,
category, checkout, about, contact or blog keyword in it, because the first
rule's pattern `'/'` is then a substring of the URL; in particular
`"https://x.com/contact"` is classified homepage rather than contact. -/
theorem C10_homepage_amended :
    ∀ url : String, '/' ∈ (pyLower url).data → (pyLower url).data.count '/' ≤ 3 →
      classify_page_type url = "homepage" := by
  intro url hmem hcount
  have h1 : containsSub (pyLower url) "/" := by
    obtain ⟨s, t, hst⟩ := List.append_of_mem hmem
    exact ⟨s, t, by rw [hst]; simp⟩
  show classify_page_type url = "homepage"
  unfold classify_page_type
  rw [if_pos ⟨Or.inl h1, hcount⟩]

theorem C10_homepage_amended_witness :
    '/' ∈ (pyLower "https://x.com/contact").data ∧
      (pyLower "https://x.com/contact").data.count '/' ≤ 3 ∧
      classify_page_type "https://x.com/contact" = "homepage" :=
  ⟨by decide, by decide, C10_homepage_amended "https://x.com/contact" (by decide) (by decide)⟩

/-- A healthy homepage crawl record used as a concrete input below. -/
def sample_home : CrawlMetrics :=
  ⟨"https://x.com/", 200, 1, "Home", "Welcome to x.", ["Home"],
    some "https://x.com/", "", 5, 2, 0, 1000⟩

/-- One domain of GSC data whose top page lies outside the audited URL set. -/
def sample_gsc : List (String × List GSCMetric) :=
  [("https://x.com/", [⟨"https://elsewhere.example/landing", 20000, 500, 1, 2⟩])]

/-- C8: a crawl record for `"https://x.com/"` with status 503 yields an
`HTTP Error` issue with severity Critical and impact score 100 — the page
classifies as homepage (weight 5.0) and `min(100, int(90 * 5.0/2.5)) = 100`;
the same record with status 404 (in 400–499) gets severity High instead. -/
theorem C8_http_error_critical_homepage :
    (⟨"https://x.com/", "HTTP Error", "Critical", "Crawlability", "New", 100⟩ :
        TechnicalSEOIssue) ∈
      analyze_issues [⟨"https://x.com/", 503, 1, "Home", "Welcome to x.", ["Home"],
        some "https://x.com/", "", 5, 2, 0, 1000⟩] [] [] ∧
    ∃ i ∈ analyze_issues [⟨"https://x.com/", 404, 1, "Home", "Welcome to x.", ["Home"],
        some "https://x.com/", "", 5, 2, 0, 1000⟩] [] [],
      i.issue_type = "HTTP Error" ∧ i.severity = "High" := by decide

/-- C9: on empty input (no crawl records, no issues) the summary is computed
without error, with `seo_score = 100` and `total_issues = 0`. -/
theorem C9_empty_input_summary :
    seo_score [] [] = 100 ∧ total_issues [] = 0 := by
  have htw : total_weight [] [] = 0 := by
    unfold total_weight group_issues_by_url group_go
    simp
  refine ⟨?_, rfl⟩
  unfold seo_score
  rw [htw]
  norm_num

/-! Keys of the `page_issues` grouping. -/

lemma insertIssue_find_none (i : TechnicalSEOIssue) (u : String) :
    ∀ acc, assocFind u (insertIssue acc i) = none ↔
      (assocFind u acc = none ∧ i.url ≠ u)
  | [] => by
    simp only [insertIssue, assocFind]
    split
    · next h => simp [h]
    · next h => simp [Ne.symm h]
  | (k, grp) :: rest => by
    simp only [insertIssue]
    split
    · next hk =>
      simp only [assocFind]
      split
      · next hu => simp
      · next hu =>
        have hne : i.url ≠ u := by rw [← hk]; exact fun he => hu he.symm
        simp [hne]
    · next hk =>
      simp only [assocFind]
      split
      · next hu => simp
      · next hu => exact insertIssue_find_none i u rest

lemma group_go_find_none (u : String) :
    ∀ (l : List TechnicalSEOIssue) (acc : List (String × List TechnicalSEOIssue)),
      assocFind u (group_go l acc) = none ↔
        (assocFind u acc = none ∧ ∀ i ∈ l, i.url ≠ u)
  | [], acc => by simp [group_go]
  | i :: rest, acc => by
    rw [group_go, group_go_find_none u rest (insertIssue acc i), insertIssue_find_none]
    constructor
    · rintro ⟨⟨h1, h2⟩, h3⟩
      refine ⟨h1, ?_⟩
      intro j hj
      rcases List.mem_cons.mp hj with rfl | hj
      · exact h2
      · exact h3 j hj
    · rintro ⟨h1, h2⟩
      exact ⟨⟨h1, h2 i (List.mem_cons_self i rest)⟩,
        fun j hj => h2 j (List.mem_cons_of_mem _ hj)⟩

lemma group_find_none (issues : List TechnicalSEOIssue) (u : String) :
    assocFind u (group_issues_by_url issues) = none ↔ ∀ i ∈ issues, i.url ≠ u := by
  unfold group_issues_by_url
  rw [group_go_find_none]
  simp [assocFind]

lemma total_weight_nonneg (issues : List TechnicalSEOIssue) (crawl : List CrawlMetrics) :
    0 ≤ total_weight issues crawl := by
  unfold total_weight
  have h1 : 0 ≤ ((group_issues_by_url issues).map (fun g => page_weight_of g.1)).sum := by
    apply List.sum_nonneg
    intro x hx
    obtain ⟨g, -, rfl⟩ := List.mem_map.mp hx
    exact page_weight_of_nonneg _
  have h2 : 0 ≤ ((crawl.filter
      (fun c => (assocFind c.url (group_issues_by_url issues)).isNone)).map
      (fun c => page_weight_of c.url)).sum := by
    apply List.sum_nonneg
    intro x hx
    obtain ⟨c, -, rfl⟩ := List.mem_map.mp hx
    exact page_weight_of_nonneg _
  exact add_nonneg h1 h2

/-- C2: in `_generate_audit_summary`, `total_weight` is the weight of the
URLs with issues plus the page weight of every crawled URL that has no issue
(such URLs contribute nothing to `total_weighted_impact`, which by definition
depends only on the issues); and whenever `total_weight` is nonzero,
`seo_score = max(0, 100 - (total_weighted_impact / total_weight) / 50)`. -/
theorem C2_seo_score_formula :
    ∀ (issues : List TechnicalSEOIssue) (crawl : List CrawlMetrics),
      total_weight issues crawl =
        total_weight issues [] +
          ((crawl.filter (fun c => decide (∀ i ∈ issues, i.url ≠ c.url))).map
            (fun c => page_weight_of c.url)).sum ∧
      (total_weight issues crawl ≠ 0 →
        seo_score issues crawl =
          max 0 (100 - (total_weighted_impact issues / total_weight issues crawl) / 50)) := by
  intro issues crawl
  constructor
  · have hfilter :
        crawl.filter (fun c => (assocFind c.url (group_issues_by_url issues)).isNone)
          = crawl.filter (fun c => decide (∀ i ∈ issues, i.url ≠ c.url)) := by
      apply List.filter_congr
      intro c _
      cases hfind : assocFind c.url (group_issues_by_url issues) with
      | none =>
        simp [decide_eq_true ((group_find_none issues c.url).mp hfind)]
      | some g =>
        have hne : ¬ (∀ i ∈ issues, i.url ≠ c.url) := fun hall => by
          rw [(group_find_none issues c.url).mpr hall] at hfind
          cases hfind
        simp [hne]
    unfold total_weight
    simp only [List.filter_nil, List.map_nil, List.sum_nil, add_zero]
    rw [hfilter]
  · intro h
    unfold seo_score
    rw [if_pos (lt_of_le_of_ne (total_weight_nonneg issues crawl) (Ne.symm h))]

theorem C2_seo_score_formula_witness :
    total_weight [] [sample_home] ≠ 0 ∧
      seo_score [] [sample_home] =
        max 0 (100 - (total_weighted_impact [] / total_weight [] [sample_home]) / 50) := by
  have hpw : page_weight_tenths "https://x.com/" = 50 := by decide
  have h : total_weight [] [sample_home] ≠ 0 := by
    unfold total_weight group_issues_by_url group_go sample_home
    simp [List.filter, assocFind, page_weight_of, hpw]
  exact ⟨h, (C2_seo_score_formula [] [sample_home]).2 h⟩

/-- C3, counterexample: with audit set `{"https://x.com/"}`, no crawl and no
schema records, GSC data whose top page lies outside the audit set makes
`_analyze_issues` emit an issue for that outside URL — the claimed invariant
fails for the GSC search-performance pass. -/
theorem C3_counterexample :
    ∃ i ∈ analyze_issues [] [] sample_gsc, i.url ∉ ["https://x.com/"] := by decide

/-- C3, amended: every issue emitted by the crawl, duplicate-content and
structured-data passes of `_analyze_issues` carries the URL of one of the
crawl/schema records (hence a URL of the audit set, which those records are
built from); issues emitted by the GSC search-performance pass instead carry
URLs taken from the Search Console response, which need not belong to the
audit set. -/
theorem C3_issue_urls_amended :
    ∀ (crawl : List CrawlMetrics) (schema : List SchemaRecord)
      (gsc : List (String × List GSCMetric)) (auditSet : List String),
      (∀ c ∈ crawl, c.url ∈ auditSet) →
      (∀ s ∈ schema, s.url ∈ auditSet) →
      ∀ i ∈ analyze_issues crawl schema gsc,
        i.url ∈ auditSet ∨ ∃ p ∈ gsc, ∃ m ∈ p.2, i.url = m.url := by
  intro crawl schema gsc auditSet hcrawl hschema i hi
  unfold analyze_issues at hi
  rcases gsc_pass_spec gsc _ i hi with hi | h
  · left
    rcases List.mem_append.mp hi with hi | hi
    · rcases List.mem_append.mp hi with hi | hi
      · obtain ⟨c, hc, hic⟩ := List.mem_flatMap.mp hi
        have := hcrawl c hc
        rwa [← (crawl_record_issues_spec c i hic).1] at this
      · obtain ⟨-, hurl⟩ := dup_pass_go_spec crawl [] [] i hi
        rcases hurl with h | ⟨k, hk⟩ | ⟨k, hk⟩
        · obtain ⟨c, hc, he⟩ := List.mem_map.mp h
          have := hcrawl c hc
          rwa [he] at this
        · simp at hk
        · simp at hk
    · obtain ⟨s, hs, his⟩ := List.mem_flatMap.mp hi
      have := hschema s hs
      rwa [← (schema_record_issues_spec s i his).1] at this
  · right
    exact h

theorem C3_issue_urls_amended_witness :
    (∀ c ∈ [sample_home], c.url ∈ ["https://x.com/"]) ∧
    (∀ s ∈ ([] : List SchemaRecord), s.url ∈ ["https://x.com/"]) ∧
    ∀ i ∈ analyze_issues [sample_home] [] sample_gsc,
      i.url ∈ ["https://x.com/"] ∨ ∃ p ∈ sample_gsc, ∃ m ∈ p.2, i.url = m.url :=
  ⟨by decide, by decide,
    C3_issue_urls_amended [sample_home] [] sample_gsc ["https://x.com/"]
      (by decide) (by decide)⟩

/-- C4: `_categorize_issues_by_team` is a partition of the issue list — the
three buckets together are a permutation of the input (no issue dropped, no
issue instance duplicated, each in exactly one bucket), and an issue matching
no keyword list of any bucket lands in the tech bucket. -/
theorem C4_team_routing_partition :
    ∀ issues : List TechnicalSEOIssue,
      ((categorize_issues_by_team issues).1 ++ (categorize_issues_by_team issues).2.1 ++
        (categorize_issues_by_team issues).2.2).Perm issues ∧
      (∀ i ∈ issues,
        ¬ team_match tech_issue_types i.issue_type →
        ¬ team_match marketing_issue_types i.issue_type →
        ¬ team_match design_issue_types i.issue_type →
        i ∈ (categorize_issues_by_team issues).1) := by
  intro issues
  induction issues with
  | nil => exact ⟨by simp [categorize_issues_by_team], by simp⟩
  | cons i rest ih =>
    obtain ⟨ihp, ihm⟩ := ih
    rcases hrec : categorize_issues_by_team rest with ⟨t, m, d⟩
    rw [hrec] at ihp ihm
    simp only [categorize_issues_by_team, hrec]
    split_ifs with h1 h2 h3
    · refine ⟨ihp.cons i, ?_⟩
      rintro j hj hj1 hj2 hj3
      rcases List.mem_cons.mp hj with rfl | hj
      · exact absurd h1 hj1
      · exact List.mem_cons_of_mem _ (ihm j hj hj1 hj2 hj3)
    · constructor
      · have e1 : t ++ (i :: m) ++ d = t ++ i :: (m ++ d) := by simp
        rw [e1]
        refine List.perm_middle.trans (List.Perm.cons i ?_)
        simpa [List.append_assoc] using ihp
      · rintro j hj hj1 hj2 hj3
        rcases List.mem_cons.mp hj with rfl | hj
        · exact absurd h2 hj2
        · exact ihm j hj hj1 hj2 hj3
    · constructor
      · exact List.perm_middle.trans (List.Perm.cons i ihp)
      · rintro j hj hj1 hj2 hj3
        rcases List.mem_cons.mp hj with rfl | hj
        · exact absurd h3 hj3
        · exact ihm j hj hj1 hj2 hj3
    · refine ⟨ihp.cons i, ?_⟩
      rintro j hj hj1 hj2 hj3
      rcases List.mem_cons.mp hj with rfl | hj
      · exact List.mem_cons_self _ _
      · exact List.mem_cons_of_mem _ (ihm j hj hj1 hj2 hj3)

theorem C4_team_routing_partition_witness :
    (((categorize_issues_by_team
        [⟨"https://x.com/", "Mystery Zone", "Low", "Content", "New", 50⟩]).1 ++
      (categorize_issues_by_team
        [⟨"https://x.com/", "Mystery Zone", "Low", "Content", "New", 50⟩]).2.1 ++
      (categorize_issues_by_team
        [⟨"https://x.com/", "Mystery Zone", "Low", "Content", "New", 50⟩]).2.2).Perm
      [⟨"https://x.com/", "Mystery Zone", "Low", "Content", "New", 50⟩]) ∧
    (⟨"https://x.com/", "Mystery Zone", "Low", "Content", "New", 50⟩ : TechnicalSEOIssue) ∈
      (categorize_issues_by_team
        [⟨"https://x.com/", "Mystery Zone", "Low", "Content", "New", 50⟩]).1 := by
  have h := C4_team_routing_partition
    [⟨"https://x.com/", "Mystery Zone", "Low", "Content", "New", 50⟩]
  exact ⟨h.1, h.2 _ (by decide) (by decide) (by decide) (by decide)⟩

/-! Unfolding equations for the cross-page pass. -/

lemma dup_pass_go_nil (tseen mseen : List (String × String)) :
    dup_pass_go [] tseen mseen = [] := by
  rw [dup_pass_go]

lemma dup_pass_go_cons (c : CrawlMetrics) (rest : List CrawlMetrics)
    (tseen mseen : List (String × String)) :
    dup_pass_go (c :: rest) tseen mseen =
      (dup_step tseen (pyStrip c.title) c.url "Duplicate Title Tags" "High" 10).1 ++
      (dup_step mseen (pyStrip c.meta_description) c.url
        "Duplicate Meta Descriptions" "Medium" 20).1 ++
      dup_pass_go rest
        (dup_step tseen (pyStrip c.title) c.url "Duplicate Title Tags" "High" 10).2
        (dup_step mseen (pyStrip c.meta_description) c.url
          "Duplicate Meta Descriptions" "Medium" 20).2 := by
  rw [dup_pass_go]

/-- C7: in the cross-page pass, when exactly two of three crawl records share
one (stripped) title that is non-empty and longer than 10 characters, both of
their URLs receive a `Duplicate Title Tags` issue and the URL of the third record
receives none. -/
theorem C7_duplicate_title_detection :
    ∀ r1 r2 r3 : CrawlMetrics,
      r1.title = r2.title →
      pyStrip r1.title ≠ "" →
      (pyStrip r1.title).data.length > 10 →
      pyStrip r3.title ≠ pyStrip r1.title →
      r3.url ≠ r1.url → r3.url ≠ r2.url →
      (∃ i ∈ analyze_issues [r1, r2, r3] [] [],
        i.issue_type = "Duplicate Title Tags" ∧ i.url = r1.url) ∧
      (∃ i ∈ analyze_issues [r1, r2, r3] [] [],
        i.issue_type = "Duplicate Title Tags" ∧ i.url = r2.url) ∧
      (∀ i ∈ analyze_issues [r1, r2, r3] [] [],
        i.issue_type = "Duplicate Title Tags" → i.url ≠ r3.url) := by
  intro r1 r2 r3 htitle hne hlen hdist hu1 hu2
  have hstrip2 : pyStrip r2.title = pyStrip r1.title := by rw [htitle]
  have ht1a : (dup_step [] (pyStrip r1.title) r1.url
      "Duplicate Title Tags" "High" 10).1 = [] := by
    unfold dup_step
    rw [if_pos ⟨hne, hlen⟩]
    simp [assocFind]
  have ht1b : (dup_step [] (pyStrip r1.title) r1.url
      "Duplicate Title Tags" "High" 10).2 = [(pyStrip r1.title, r1.url)] := by
    unfold dup_step
    rw [if_pos ⟨hne, hlen⟩]
    simp [assocFind]
  have ht2a : (dup_step [(pyStrip r1.title, r1.url)] (pyStrip r1.title) r2.url
      "Duplicate Title Tags" "High" 10).1 =
      [mkIssue r2.url "Duplicate Title Tags" "High" "Content",
       mkIssue r1.url "Duplicate Title Tags" "High" "Content"] := by
    unfold dup_step
    rw [if_pos ⟨hne, hlen⟩]
    simp [assocFind]
  have ht2b : (dup_step [(pyStrip r1.title, r1.url)] (pyStrip r1.title) r2.url
      "Duplicate Title Tags" "High" 10).2 = [(pyStrip r1.title, r1.url)] := by
    unfold dup_step
    rw [if_pos ⟨hne, hlen⟩]
    simp [assocFind]
  have ht3a : (dup_step [(pyStrip r1.title, r1.url)] (pyStrip r3.title) r3.url
      "Duplicate Title Tags" "High" 10).1 = [] := by
    unfold dup_step
    split
    · simp [assocFind, hdist]
    · rfl
  have hAn : analyze_issues [r1, r2, r3] [] [] =
      [r1, r2, r3].flatMap crawl_record_issues ++ dup_pass [r1, r2, r3] := by
    unfold analyze_issues
    rw [gsc_pass]
    simp
  have hD : dup_pass [r1, r2, r3] =
      (dup_step [] (pyStrip r1.meta_description) r1.url
        "Duplicate Meta Descriptions" "Medium" 20).1 ++
      (mkIssue r2.url "Duplicate Title Tags" "High" "Content" ::
       mkIssue r1.url "Duplicate Title Tags" "High" "Content" ::
       ((dup_step (dup_step [] (pyStrip r1.meta_description) r1.url
            "Duplicate Meta Descriptions" "Medium" 20).2
          (pyStrip r2.meta_description) r2.url
          "Duplicate Meta Descriptions" "Medium" 20).1 ++
        (dup_step (dup_step (dup_step [] (pyStrip r1.meta_description) r1.url
              "Duplicate Meta Descriptions" "Medium" 20).2
            (pyStrip r2.meta_description) r2.url
            "Duplicate Meta Descriptions" "Medium" 20).2
          (pyStrip r3.meta_description) r3.url
          "Duplicate Meta Descriptions" "Medium" 20).1)) := by
    unfold dup_pass
    rw [dup_pass_go_cons, ht1a, ht1b, dup_pass_go_cons, hstrip2, ht2a, ht2b,
        dup_pass_go_cons, ht3a, dup_pass_go_nil]
    simp [mkIssue]
  refine ⟨⟨mkIssue r1.url "Duplicate Title Tags" "High" "Content",
      by rw [hAn, hD]; simp, rfl, rfl⟩,
    ⟨mkIssue r2.url "Duplicate Title Tags" "High" "Content",
      by rw [hAn, hD]; simp, rfl, rfl⟩, ?_⟩
  intro i hi htype
  rw [hAn, hD] at hi
  rcases List.mem_append.mp hi with hi | hi
  · obtain ⟨c, hc, hic⟩ := List.mem_flatMap.mp hi
    obtain ⟨-, htypes⟩ := crawl_record_issues_spec c i hic
    rw [htype] at htypes
    exact absurd htypes (by decide)
  · rcases List.mem_append.mp hi with hi | hi
    · obtain ⟨hty, -⟩ := dup_step_fst_spec _ _ _ _ _ _ i hi
      rw [htype] at hty
      exact absurd hty (by decide)
    · rcases List.mem_cons.mp hi with rfl | hi
      · exact Ne.symm hu2
      · rcases List.mem_cons.mp hi with rfl | hi
        · exact Ne.symm hu1
        · rcases List.mem_append.mp hi with hi | hi
          · obtain ⟨hty, -⟩ := dup_step_fst_spec _ _ _ _ _ _ i hi
            rw [htype] at hty
            exact absurd hty (by decide)
          · obtain ⟨hty, -⟩ := dup_step_fst_spec _ _ _ _ _ _ i hi
            rw [htype] at hty
            exact absurd hty (by decide)

theorem C7_duplicate_title_detection_witness :
    (∃ i ∈ analyze_issues
        [⟨"https://a.example/x/y/z", 200, 1, "Seaside Photo Gifts", "", [], none, "", 5, 2, 0, 9⟩,
         ⟨"https://b.example/x/y/z", 200, 1, "Seaside Photo Gifts", "", [], none, "", 5, 2, 0, 9⟩,
         ⟨"https://c.example/x/y/z", 200, 1, "Completely Unique Title", "", [], none, "", 5, 2, 0, 9⟩]
        [] [],
      i.issue_type = "Duplicate Title Tags" ∧ i.url = "https://a.example/x/y/z") ∧
    (∃ i ∈ analyze_issues
        [⟨"https://a.example/x/y/z", 200, 1, "Seaside Photo Gifts", "", [], none, "", 5, 2, 0, 9⟩,
         ⟨"https://b.example/x/y/z", 200, 1, "Seaside Photo Gifts", "", [], none, "", 5, 2, 0, 9⟩,
         ⟨"https://c.example/x/y/z", 200, 1, "Completely Unique Title", "", [], none, "", 5, 2, 0, 9⟩]
        [] [],
      i.issue_type = "Duplicate Title Tags" ∧ i.url = "https://b.example/x/y/z") ∧
    (∀ i ∈ analyze_issues
        [⟨"https://a.example/x/y/z", 200, 1, "Seaside Photo Gifts", "", [], none, "", 5, 2, 0, 9⟩,
         ⟨"https://b.example/x/y/z", 200, 1, "Seaside Photo Gifts", "", [], none, "", 5, 2, 0, 9⟩,
         ⟨"https://c.example/x/y/z", 200, 1, "Completely Unique Title", "", [], none, "", 5, 2, 0, 9⟩]
        [] [],
      i.issue_type = "Duplicate Title Tags" → i.url ≠ "https://c.example/x/y/z") :=
  C7_duplicate_title_detection
    ⟨"https://a.example/x/y/z", 200, 1, "Seaside Photo Gifts", "", [], none, "", 5, 2, 0, 9⟩
    ⟨"https://b.example/x/y/z", 200, 1, "Seaside Photo Gifts", "", [], none, "", 5, 2, 0, 9⟩
    ⟨"https://c.example/x/y/z", 200, 1, "Completely Unique Title", "", [], none, "", 5, 2, 0, 9⟩
    (by decide) (by decide) (by decide) (by decide) (by decide) (by decide)

end SEOAudit
